import Mathlib

/-!
# Verification of the PKCE OAuth client (`src/login/pkce.js`)

A shallow embedding of the `OAuthClientServer` class from `src/login/pkce.js`
into Lean 4, together with theorems settling the specification claims about it.

Modelling conventions:
* JavaScript strings are Lean `String`s; `undefined`-able values are `Option`s.
* JS truthiness of a possibly-undefined string (`undefined` and `""` are falsy)
  is `jsTruthy`.
* The session store (a plain JS object used as a map) is an association list.
* Randomness (`generateRandomString`) is modelled by passing the generated
  `state` and `codeVerifier` values as explicit parameters to the `/auth`
  handler.
* Network I/O (`fetch`) is modelled by passing the outcome of the fetch
  (HTTP status plus parsed JSON body, or a thrown transport error) as an
  explicit `FetchOutcome` parameter.
* Side effects (deleting a store entry, calling the token endpoint, resolving
  or rejecting the pending promise, invoking `close()`) are recorded in an
  `Effect` trace, in the order the source performs them.
* `crypto.createHash('sha256')` is embedded as an executable SHA-256 (FIPS
  180-4) over the UTF-8 bytes of the input (Node's default encoding, which
  agrees with ASCII on the verifier alphabet), and `digest('base64')` as an
  executable standard base64 encoder.
-/

namespace Pkce

/-! ## Basic JS-value helpers -/

/-- Truthiness of a possibly-undefined JS string: `undefined` and `""` are falsy. -/
def jsTruthy : Option String → Bool
  | none => false
  | some s => s ≠ ""

/-- String interpolation of a possibly-undefined JS value:
`` `${undefined}` `` is the string `"undefined"`. -/
def jsShow : Option String → String
  | none => "undefined"
  | some s => s

/-- JS `a || b` specialised to a possibly-undefined string on the left:
falls through on `undefined` and on `""`. -/
def jsOrS : Option String → String → String
  | none, b => b
  | some s, b => if s = "" then b else s

/-! ## SHA-256 (FIPS 180-4), executable, over byte lists

Embeds Node's `crypto.createHash('sha256').update(v).digest()`. -/

/-- `2^32`, the word modulus. -/
def w32 : Nat := 4294967296

/-- Right-rotation of a 32-bit word. -/
def rotr (n x : Nat) : Nat := ((x >>> n) ||| (x <<< (32 - n))) % w32

/-- FIPS 180-4 `σ₀`. -/
def ssig0 (x : Nat) : Nat := rotr 7 x ^^^ rotr 18 x ^^^ (x >>> 3)

/-- FIPS 180-4 `σ₁`. -/
def ssig1 (x : Nat) : Nat := rotr 17 x ^^^ rotr 19 x ^^^ (x >>> 10)

/-- FIPS 180-4 `Σ₀`. -/
def bsig0 (x : Nat) : Nat := rotr 2 x ^^^ rotr 13 x ^^^ rotr 22 x

/-- FIPS 180-4 `Σ₁`. -/
def bsig1 (x : Nat) : Nat := rotr 6 x ^^^ rotr 11 x ^^^ rotr 25 x

/-- FIPS 180-4 `Ch`. -/
def chOp (x y z : Nat) : Nat := (x &&& y) ^^^ ((x ^^^ 4294967295) &&& z)

/-- FIPS 180-4 `Maj`. -/
def majOp (x y z : Nat) : Nat := (x &&& y) ^^^ (x &&& z) ^^^ (y &&& z)

/-- The 64 SHA-256 round constants. -/
def sha256K : List Nat :=
  [1116352408, 1899447441, 3049323471, 3921009573, 961987163,
   1508970993, 2453635748, 2870763221, 3624381080, 310598401,
   607225278, 1426881987, 1925078388, 2162078206, 2614888103,
   3248222580, 3835390401, 4022224774, 264347078, 604807628,
   770255983, 1249150122, 1555081692, 1996064986, 2554220882,
   2821834349, 2952996808, 3210313671, 3336571891, 3584528711,
   113926993, 338241895, 666307205, 773529912, 1294757372,
   1396182291, 1695183700, 1986661051, 2177026350, 2456956037,
   2730485921, 2820302411, 3259730800, 3345764771, 3516065817,
   3600352804, 4094571909, 275423344, 430227734, 506948616,
   659060556, 883997877, 958139571, 1322822218, 1537002063,
   1747873779, 1955562222, 2024104815, 2227730452, 2361852424,
   2428436474, 2756734187, 3204031479, 3329325298]

/-- The SHA-256 initial hash value. -/
def sha256H0 : List Nat :=
  [1779033703, 3144134277, 1013904242, 2773480762,
   1359893119, 2600822924, 528734635, 1541459225]

/-- Append the length padding to a message (byte list), per FIPS 180-4 §5.1.1. -/
def padBytes (ms : List Nat) : List Nat :=
  let len := ms.length
  let k := (120 - ((len + 1) % 64)) % 64
  let bitLen := len * 8
  ms ++ [128] ++ List.replicate k 0 ++
    (List.range 8).map (fun i => bitLen / 256 ^ (7 - i) % 256)

/-- Group a byte list into big-endian 32-bit words (the input length is a
multiple of 4 after padding; a ragged tail is dropped). -/
def bytesToWords : List Nat → List Nat
  | b0 :: b1 :: b2 :: b3 :: rest =>
      (b0 * 16777216 + b1 * 65536 + b2 * 256 + b3) :: bytesToWords rest
  | _ => []

/-- Group a word list into 16-word blocks (the input length is a multiple of
16 after padding; a ragged tail is dropped). -/
def wordsToBlocks : List Nat → List (List Nat)
  | w0 :: w1 :: w2 :: w3 :: w4 :: w5 :: w6 :: w7 ::
    w8 :: w9 :: w10 :: w11 :: w12 :: w13 :: w14 :: w15 :: rest =>
      [w0, w1, w2, w3, w4, w5, w6, w7, w8, w9, w10, w11, w12, w13, w14, w15] ::
        wordsToBlocks rest
  | _ => []

/-- Extend the message schedule by `n` further words; `acc` holds the schedule
so far, newest word first. -/
def extendLoop : Nat → List Nat → List Nat
  | 0, acc => acc
  | n + 1, acc =>
      extendLoop n
        (((ssig1 (acc.getD 1 0) + acc.getD 6 0 +
           ssig0 (acc.getD 14 0) + acc.getD 15 0) % w32) :: acc)

/-- The 64-word message schedule of a 16-word block, per FIPS 180-4 §6.2.2. -/
def messageSchedule (block : List Nat) : List Nat :=
  (extendLoop 48 block.reverse).reverse

/-- One SHA-256 round on the working variables `[a,b,c,d,e,f,g,h]`;
`kw` is `(K[t] + W[t]) mod 2^32`. -/
def compressStep (st : List Nat) (kw : Nat) : List Nat :=
  match st with
  | [a, b, c, d, e, f, g, h] =>
      let t1 := (h + bsig1 e + chOp e f g + kw) % w32
      let t2 := (bsig0 a + majOp a b c) % w32
      [(t1 + t2) % w32, a, b, c, (d + t1) % w32, e, f, g]
  | l => l

/-- Process one 16-word block into the running hash value. -/
def processBlock (hs : List Nat) (block : List Nat) : List Nat :=
  let ws := messageSchedule block
  let kws := List.zipWith (fun k w => (k + w) % w32) sha256K ws
  let out := kws.foldl compressStep hs
  List.zipWith (fun x y => (x + y) % w32) hs out

/-- A 32-bit word as 4 big-endian bytes. -/
def wordToBytes (w : Nat) : List Nat :=
  [w / 16777216 % 256, w / 65536 % 256, w / 256 % 256, w % 256]

/-- SHA-256 digest (32 bytes) of a byte list. -/
def sha256 (ms : List Nat) : List Nat :=
  ((wordsToBlocks (bytesToWords (padBytes ms))).foldl processBlock sha256H0).flatMap
    wordToBytes

/-- UTF-8 encoding of one character (Node's default `update` encoding). -/
def utf8EncodeChar (c : Char) : List Nat :=
  let n := c.toNat
  if n < 128 then [n]
  else if n < 2048 then [192 + n / 64, 128 + n % 64]
  else if n < 65536 then [224 + n / 4096, 128 + n / 64 % 64, 128 + n % 64]
  else [240 + n / 262144, 128 + n / 4096 % 64, 128 + n / 64 % 64, 128 + n % 64]

/-- The bytes Node hashes for a JS string (UTF-8; equals the ASCII bytes on
the all-ASCII verifier alphabet). -/
def strBytes (s : String) : List Nat := s.toList.flatMap utf8EncodeChar

/-! ## Base64 (standard alphabet, with `=` padding) -/

/-- The standard base64 alphabet, indexed 0–63. -/
def b64Char (n : Nat) : Char :=
  ("ABCDEFGHIJKLMNOPQRSTUVWXYZabcdefghijklmnopqrstuvwxyz0123456789+/".toList).getD
    n 'A'

/-- Base64 output of one group of at most 3 bytes. -/
def b64Group : List Nat → List Char
  | [b0] => [b64Char (b0 / 4), b64Char (b0 % 4 * 16), '=', '=']
  | [b0, b1] =>
      [b64Char (b0 / 4), b64Char (b0 % 4 * 16 + b1 / 16), b64Char (b1 % 16 * 4), '=']
  | [b0, b1, b2] =>
      [b64Char (b0 / 4), b64Char (b0 % 4 * 16 + b1 / 16),
       b64Char (b1 % 16 * 4 + b2 / 64), b64Char (b2 % 64)]
  | _ => []

/-- Split a byte list into groups of 3 (final group may be shorter). -/
def chunk3 : List Nat → List (List Nat)
  | [] => []
  | [b0] => [[b0]]
  | [b0, b1] => [[b0, b1]]
  | b0 :: b1 :: b2 :: rest => [b0, b1, b2] :: chunk3 rest

/-- Standard base64 encoding of a byte list, as a character list. -/
def base64Chars (bs : List Nat) : List Char := (chunk3 bs).flatMap b64Group

/-! ## The code challenge (`src/login/pkce.js` lines 147–154) -/

/-- Embeds `.replace(/\//g, '_')` (a single-character global replace). -/
def slashRepl (c : Char) : Char := if c = '/' then '_' else c

/-- Embeds `.replace(/\+/g, '-')` (a single-character global replace). -/
def plusRepl (c : Char) : Char := if c = '+' then '-' else c

/-- Embeds `.replace(/=*$/, '')`: remove all trailing `=` characters. -/
def stripTrailingEq (l : List Char) : List Char :=
  (l.reverse.dropWhile (fun c => c = '=')).reverse

/-- The PKCE code challenge computed in the `/auth` handler:
`crypto.createHash('sha256').update(v).digest('base64')` followed by the
web-safe replacements and padding strip, in source order. -/
def codeChallenge (v : String) : String :=
  String.mk
    (stripTrailingEq (((base64Chars (sha256 (strBytes v))).map slashRepl).map plusRepl))

/-- Modelled from the spec's words (§4.2): SHA-256 over the bytes of the
verifier, base64, then `+`→`-`, then `/`→`_`, then strip trailing `=`
(the spec lists the replacements in the opposite order from the source). -/
def specChallenge (v : String) : String :=
  String.mk
    (stripTrailingEq (((base64Chars (sha256 (strBytes v))).map plusRepl).map slashRepl))

end Pkce

namespace Pkce

/-! ## Client configuration and state (`OAuthClientServer`) -/

/-- Default OAuth scope (`DEFAULT_SCOPE`). -/
def DEFAULT_SCOPE : String := "openid"

/-- OAuth scope separator (`SCOPE_SEPARATOR`). -/
def SCOPE_SEPARATOR : String := " "

/-- The host for the local server (`HOST`). -/
def HOST : String := "localhost"

/-- The default port for the local server (`PORT`). -/
def PORT : Nat := 5555

/-- The immutable part of `OAuthClientServer`: the constructor configuration.
`clientSecret` is `Option` because the code guards every use with JS
truthiness. -/
structure ClientConfig where
  clientId : String
  clientSecret : Option String
  authUri : String
  tokenUri : String
  revokeUri : String
  logoutUri : String
  successUri : String
deriving DecidableEq, Repr

/-- The session store: a JS object mapping state strings to code verifiers,
embedded as an association list. -/
def SessionStore : Type := List (String × String)

instance : DecidableEq SessionStore := inferInstanceAs (DecidableEq (List (String × String)))

/-- `store[state]` — `none` plays JS `undefined`. -/
def sGet (store : SessionStore) (k : String) : Option String :=
  (List.find? (fun p => p.1 = k) store).map (fun p => p.2)

/-- `delete store[state]`. -/
def sDel (store : SessionStore) (k : String) : SessionStore :=
  List.filter (fun p => p.1 ≠ k) store

/-- `store[state] = verifier` (assignment overwrites any previous binding). -/
def sPut (store : SessionStore) (k v : String) : SessionStore :=
  (k, v) :: sDel store k

/-- The mutable fields of `OAuthClientServer`: `scopes`, `server` (the
listener handle, `null` when no flow runs, modelled by the bound port),
`serverAddress` and `sessionStore`. -/
structure ClientState where
  scopes : String
  server : Option Nat
  serverAddress : Option String
  sessionStore : SessionStore
deriving DecidableEq

/-- The state right after `new OAuthClientServer(config)`. -/
def initialState : ClientState :=
  { scopes := DEFAULT_SCOPE, server := none, serverAddress := none, sessionStore := [] }

/-! ## Observable effects

Each handler run is recorded as a trace of the side effects the source
performs, in source order. -/

/-- One observable side effect of the client. -/
inductive Effect where
  /-- `delete this.sessionStore[state]` in the `/callback` handler. -/
  | deleteEntry (state : String)
  /-- `fetch(this.tokenUri, {... body ...})` — the token-endpoint call,
  carrying the form-encoded request body. -/
  | fetchToken (body : String)
  /-- `resolve(json)` — settling the pending `authorize` promise. -/
  | resolveFlow
  /-- `reject(error)` — settling the pending `authorize` promise. -/
  | rejectFlow
  /-- An invocation of `this.close()`. -/
  | closeServer
  /-- `this.app.listen(port, HOST, ...)` — binding the local listener. -/
  | listen (port : Nat)
  /-- `open(url)` — launching the browser. -/
  | openBrowser (url : String)
deriving DecidableEq, Repr

/-! ## `encodeURIComponent`

Leaves ASCII alphanumerics and `- _ . ! ~ * ' ( )` intact and
percent-encodes every other character's UTF-8 bytes, uppercase hex. -/

/-- Characters `encodeURIComponent` leaves unescaped. -/
def uriUnreserved (c : Char) : Bool :=
  c.isAlpha || c.isDigit ||
    c = '-' || c = '_' || c = '.' || c = '!' || c = '~' || c = '*' ||
    c = Char.ofNat 39 || c = '(' || c = ')'

/-- Uppercase hexadecimal digit. -/
def hexDigit (n : Nat) : Char :=
  if n < 10 then Char.ofNat (48 + n) else Char.ofNat (55 + n)

/-- JS `encodeURIComponent`. -/
def encodeURIComponent (s : String) : String :=
  String.mk (s.toList.flatMap fun c =>
    if uriUnreserved c then [c]
    else (utf8EncodeChar c).flatMap fun b => ['%', hexDigit (b / 16), hexDigit (b % 16)])

/-! ## `close()` (lines 298–304) -/

/-- `close()` with its effect trace: closes the listener if one is bound and
nulls the handle; otherwise does nothing. It touches no other field and
never settles the pending promise. -/
def closeRun (st : ClientState) : ClientState × List Effect :=
  if st.server.isSome then ({ st with server := none }, [Effect.closeServer]) else (st, [])

/-- The state after `close()`. -/
def close (st : ClientState) : ClientState := (closeRun st).1

/-! ## `authorize(scopes, port)` (lines 274–293) -/

/-- Result of an `authorize` call: a synchronous rejection (a second flow was
already running) or a pending promise with the listener bound. -/
inductive AuthResult where
  /-- `Promise.reject(new Error(msg))` returned synchronously. -/
  | rejected (msg : String)
  /-- The returned promise is pending; the flow is now running. -/
  | pending
deriving DecidableEq, Repr

/-- Full outcome of an `authorize` call: result, post-call client state and
effect trace. -/
structure AuthorizeOut where
  result : AuthResult
  st : ClientState
  effects : List Effect
deriving DecidableEq

/-- The address recorded once the listener is bound:
`` `http://${HOST}:${this.server.address().port}` ``. -/
def serverAddressFor (port : Nat) : String :=
  "http://" ++ HOST ++ ":" ++ toString port

/-- `authorize(scopes, port)`. If a flow is already running (`this.server`
non-null) it rejects synchronously, leaving every field untouched and
performing no effect. Otherwise it records the scopes (caller scopes plus
`DEFAULT_SCOPE`, or `DEFAULT_SCOPE` alone when the caller's string is
absent or empty), binds the listener and opens the browser at `/auth`. -/
def authorize (st : ClientState) (scopes : Option String) (port : Nat) : AuthorizeOut :=
  if st.server.isSome then
    { result := AuthResult.rejected
        "Pending authorization flow. Close existing session to rerun.",
      st := st, effects := [] }
  else
    let sc := if jsTruthy scopes then
        scopes.getD "" ++ SCOPE_SEPARATOR ++ DEFAULT_SCOPE
      else DEFAULT_SCOPE
    let addr := serverAddressFor port
    { result := AuthResult.pending,
      st := { st with scopes := sc, server := some port, serverAddress := some addr },
      effects := [Effect.listen port, Effect.openBrowser (addr ++ "/auth")] }

/-! ## The `/auth` handler (lines 141–171) -/

/-- What the `/auth` handler sends back: the `session_state` cookie and the
302 redirect location. -/
structure AuthOut where
  cookie : String × String
  location : String
  st : ClientState
deriving DecidableEq

/-- The `/auth` handler, with the randomly generated `codeVerifier` and
`state` passed explicitly. Stores `state → verifier`, sets the
`session_state` cookie and redirects to the provider's authorization URL. -/
def authHandler (cfg : ClientConfig) (st : ClientState)
    (codeVerifier state : String) : AuthOut :=
  let challenge := codeChallenge codeVerifier
  { cookie := ("session_state", state),
    location := cfg.authUri ++
      "?client_id=" ++ encodeURIComponent cfg.clientId ++
      "&redirect_uri=" ++ encodeURIComponent (jsShow st.serverAddress ++ "/callback") ++
      "&response_type=code" ++
      "&scope=" ++ encodeURIComponent st.scopes ++
      "&code_challenge=" ++ encodeURIComponent challenge ++
      "&code_challenge_method=S256" ++
      "&prompt=login" ++
      "&state=" ++ encodeURIComponent state,
    st := { st with sessionStore := sPut st.sessionStore state codeVerifier } }

end Pkce

namespace Pkce

/-! ## Token-endpoint responses -/

/-- The fields of the parsed token-endpoint JSON body the code ever reads;
each is `Option` because any may be absent (`undefined`). -/
structure TokenBody where
  error : Option String := none
  error_description : Option String := none
  id_token : Option String := none
  refresh_token : Option String := none
deriving DecidableEq, Repr

/-- Outcome of an awaited `fetch` plus `response.json()`: either a parsed
response with its HTTP status, or a thrown transport/parse error. -/
inductive FetchOutcome where
  | success (status : Nat) (body : TokenBody)
  | failure (msg : String)
deriving DecidableEq, Repr

/-- `json.error_description || json.error || 'Unknown Error'` (JS `||`,
so empty strings also fall through). -/
def errMsg (body : TokenBody) : String :=
  jsOrS body.error_description (jsOrS body.error "Unknown Error")

/-! ## The `/callback` handler (lines 173–218) -/

/-- A `/callback` request: the `session_state` cookie and the `state` and
`code` query parameters, each possibly absent. -/
structure CallbackReq where
  cookieState : Option String
  qCode : Option String
  qState : Option String
deriving DecidableEq, Repr

/-- The handler's validation test, exactly the source condition
`actualState && code && state === actualState &&
(typeof this.sessionStore[actualState] !== 'undefined')`. -/
def validCallback (store : SessionStore) (req : CallbackReq) : Bool :=
  jsTruthy req.qState && jsTruthy req.qCode &&
    (req.cookieState == req.qState) &&
    (sGet store (req.qState.getD "")).isSome

/-- The form-encoded body of the authorization-code exchange request
(lines 187–195). -/
def exchangeBody (cfg : ClientConfig) (serverAddress : Option String)
    (code codeVerifier : String) : String :=
  "grant_type=authorization_code" ++
  "&client_id=" ++ encodeURIComponent cfg.clientId ++
  (if jsTruthy cfg.clientSecret then
     "&client_secret=" ++ encodeURIComponent (cfg.clientSecret.getD "")
   else "") ++
  "&code=" ++ encodeURIComponent code ++
  "&code_verifier=" ++ encodeURIComponent codeVerifier ++
  "&redirect_uri=" ++ encodeURIComponent (jsShow serverAddress ++ "/callback")

/-- What the handler sends to the browser. -/
inductive HttpOut where
  /-- `res.redirect(uri)`. -/
  | redirect (uri : String)
  /-- `res.status(code); res.send(body)`; the body is `Option` because
  `res.send(json.error)` may pass `undefined`. -/
  | statusSend (code : Nat) (body : Option String)
deriving DecidableEq, Repr

/-- How the pending `authorize` promise is settled by this handler run;
the rejection message is the argument passed to `new Error(·)`, `none`
standing for `undefined`. -/
inductive Outcome where
  | resolved (v : TokenBody)
  | rejected (msg : Option String)
deriving DecidableEq, Repr

/-- Everything observable about one `/callback` handler run. -/
structure CallbackResult where
  http : HttpOut
  outcome : Outcome
  st : ClientState
  effects : List Effect
deriving DecidableEq

/-- The `/callback` handler. On a valid request it reads the verifier,
deletes the store entry, performs the token exchange (whose outcome is the
`fetchResult` parameter), and either redirects to `successUri` and resolves,
or forwards the failure status and rejects with `json.error`, or surfaces a
thrown transport error as a 500. On an invalid request it responds
400 `"Invalid IdP response"` and rejects, attempting no exchange.
`this.close()` runs last on every path. -/
def handleCallback (cfg : ClientConfig) (st : ClientState) (req : CallbackReq)
    (fetchResult : FetchOutcome) : CallbackResult :=
  if validCallback st.sessionStore req then
    let aState := req.qState.getD ""
    let codeVerifier := (sGet st.sessionStore aState).getD ""
    let st1 : ClientState := { st with sessionStore := sDel st.sessionStore aState }
    let body := exchangeBody cfg st.serverAddress (req.qCode.getD "") codeVerifier
    match fetchResult with
    | FetchOutcome.success status json =>
      if status = 200 then
        { http := HttpOut.redirect cfg.successUri,
          outcome := Outcome.resolved json,
          st := close st1,
          effects := [Effect.deleteEntry aState, Effect.fetchToken body,
                      Effect.resolveFlow, Effect.closeServer] }
      else
        { http := HttpOut.statusSend status json.error,
          outcome := Outcome.rejected json.error,
          st := close st1,
          effects := [Effect.deleteEntry aState, Effect.fetchToken body,
                      Effect.rejectFlow, Effect.closeServer] }
    | FetchOutcome.failure msg =>
        { http := HttpOut.statusSend 500 (some msg),
          outcome := Outcome.rejected (some msg),
          st := close st1,
          effects := [Effect.deleteEntry aState, Effect.fetchToken body,
                      Effect.rejectFlow, Effect.closeServer] }
  else
    { http := HttpOut.statusSend 400 (some "Invalid IdP response"),
      outcome := Outcome.rejected (some "Invalid IdP response"),
      st := close st,
      effects := [Effect.rejectFlow, Effect.closeServer] }

/-! ## `refresh`, `revoke`, `revokeAndGetLogoutUrl` (lines 125–130, 227–265) -/

/-- `refresh(refreshToken)` given the fetch outcome: resolves with the parsed
body on status 200, otherwise throws `error_description || error ||
'Unknown Error'`; a thrown fetch propagates. -/
def refresh (fetchResult : FetchOutcome) : Except String TokenBody :=
  match fetchResult with
  | FetchOutcome.failure msg => Except.error msg
  | FetchOutcome.success status json =>
      if status ≠ 200 then Except.error (errMsg json) else Except.ok json

/-- `revoke(token, tokenType)` given the fetch outcome: resolves on status
200, otherwise throws `error_description || error || 'Unknown Error'`. -/
def revoke (fetchResult : FetchOutcome) : Except String Unit :=
  match fetchResult with
  | FetchOutcome.failure msg => Except.error msg
  | FetchOutcome.success status json =>
      if status ≠ 200 then Except.error (errMsg json) else Except.ok ()

/-- A call made by `revokeAndGetLogoutUrl`, with its arguments. -/
inductive CallEvent where
  | refreshCall (token : String)
  | revokeCall (token tokenType : String)
deriving DecidableEq, Repr

instance {ε α : Type} [DecidableEq ε] [DecidableEq α] : DecidableEq (Except ε α) :=
  fun x y =>
    match x, y with
    | Except.error a, Except.error b =>
        if h : a = b then isTrue (by rw [h]) else isFalse (by simp [h])
    | Except.ok a, Except.ok b =>
        if h : a = b then isTrue (by rw [h]) else isFalse (by simp [h])
    | Except.error _, Except.ok _ => isFalse (by simp)
    | Except.ok _, Except.error _ => isFalse (by simp)

/-- The observable run of `revokeAndGetLogoutUrl`: which token-client calls
were made (in order) and the returned or thrown value. -/
structure LogoutRun where
  calls : List CallEvent
  result : Except String String
deriving DecidableEq, Repr

/-- `revokeAndGetLogoutUrl(refreshToken)`: awaits `refresh(refreshToken)`
(a failure propagates, so `revoke` is never reached), then awaits
`revoke(refreshToken, 'refresh_token')`, then returns
`` `${this.logoutUri}?id_token_hint=${resp.id_token}` ``. -/
def revokeAndGetLogoutUrl (cfg : ClientConfig) (refreshToken : String)
    (refreshFetch revokeFetch : FetchOutcome) : LogoutRun :=
  match refresh refreshFetch with
  | Except.error m => { calls := [CallEvent.refreshCall refreshToken], result := Except.error m }
  | Except.ok json =>
    match revoke revokeFetch with
    | Except.error m =>
        { calls := [CallEvent.refreshCall refreshToken,
                    CallEvent.revokeCall refreshToken "refresh_token"],
          result := Except.error m }
    | Except.ok _ =>
        { calls := [CallEvent.refreshCall refreshToken,
                    CallEvent.revokeCall refreshToken "refresh_token"],
          result := Except.ok (cfg.logoutUri ++ "?id_token_hint=" ++ jsShow json.id_token) }

end Pkce

namespace Pkce

/-! ## Helper lemmas about the challenge transformations -/

lemma mem_stripTrailingEq {x : Char} {l : List Char} (h : x ∈ stripTrailingEq l) :
    x ∈ l := by
  unfold stripTrailingEq at h
  rw [List.mem_reverse] at h
  have h2 := (List.dropWhile_sublist _).mem h
  rwa [List.mem_reverse] at h2

lemma head?_dropWhile_false (p : Char → Bool) :
    ∀ {l : List Char} {a : Char}, (l.dropWhile p).head? = some a → p a = false := by
  intro l
  induction l with
  | nil => intro a h; simp [List.dropWhile] at h
  | cons x xs ih =>
    intro a h
    rw [List.dropWhile_cons] at h
    by_cases hx : p x <;> simp [hx] at h
    · exact ih h
    · subst h; simp at hx; simp [hx]

lemma getLast?_stripTrailingEq (l : List Char) :
    (stripTrailingEq l).getLast? ≠ some '=' := by
  unfold stripTrailingEq
  rw [List.getLast?_reverse]
  intro h
  have := head?_dropWhile_false _ h
  simp at this

lemma plusRepl_ne_plus (c : Char) : plusRepl c ≠ '+' := by
  by_cases h : c = '+'
  · subst h; decide
  · simp [plusRepl, h]

lemma plusRepl_slashRepl_ne_slash (c : Char) : plusRepl (slashRepl c) ≠ '/' := by
  by_cases h1 : c = '/'
  · subst h1; decide
  · by_cases h2 : c = '+'
    · subst h2; decide
    · simp [slashRepl, plusRepl, h1, h2]

lemma repl_comm (c : Char) : plusRepl (slashRepl c) = slashRepl (plusRepl c) := by
  by_cases h1 : c = '/'
  · subst h1; decide
  · by_cases h2 : c = '+'
    · subst h2; decide
    · simp [slashRepl, plusRepl, h1, h2]

/-- Sanity check of the embedded hash-and-encode pipeline against a real
vector: SHA-256 of `"abc"` base64-encodes to `ungWv48Bz+pBQUDeXa4iI7ADYaOWF3qctBD/YfIAFa0=`,
so the challenge exercises both replacements and the padding strip. -/
theorem codeChallenge_test_vector :
    codeChallenge "abc" = "ungWv48Bz-pBQUDeXa4iI7ADYaOWF3qctBD_YfIAFa0" := by
  decide

/-- C2: for every verifier `V`, `codeChallenge V` equals the spec's
description (base64 of the SHA-256 digest of the bytes of `V`, `+`→`-`,
`/`→`_`, trailing `=` removed); it is deterministic, and the result contains
no `+`, no `/`, and does not end in `=`. -/
theorem C2_codeChallenge_spec (v w : String) :
    (w = v → codeChallenge w = codeChallenge v) ∧
    codeChallenge v = specChallenge v ∧
    '+' ∉ (codeChallenge v).toList ∧
    '/' ∉ (codeChallenge v).toList ∧
    (codeChallenge v).toList.getLast? ≠ some '=' := by
  have hl : (codeChallenge v).toList =
      stripTrailingEq (((base64Chars (sha256 (strBytes v))).map slashRepl).map plusRepl) := by
    simp only [codeChallenge, String.toList]
  refine ⟨fun h => by rw [h], ?_, ?_, ?_, ?_⟩
  · have hfun : plusRepl ∘ slashRepl = slashRepl ∘ plusRepl := funext repl_comm
    unfold codeChallenge specChallenge
    rw [List.map_map, List.map_map, hfun]
  · rw [hl]
    intro hmem
    have h2 := mem_stripTrailingEq hmem
    obtain ⟨c, -, hc⟩ := List.mem_map.mp h2
    exact plusRepl_ne_plus c hc
  · rw [hl]
    intro hmem
    have h2 := mem_stripTrailingEq hmem
    rw [List.map_map] at h2
    obtain ⟨c, -, hc⟩ := List.mem_map.mp h2
    exact plusRepl_slashRepl_ne_slash c hc
  · rw [hl]
    exact getLast?_stripTrailingEq _

/-- Witness for C2 at the concrete verifier `"abc"`. -/
theorem C2_witness :
    codeChallenge "abc" = codeChallenge "abc" ∧
    codeChallenge "abc" = specChallenge "abc" ∧
    '+' ∉ (codeChallenge "abc").toList ∧
    '/' ∉ (codeChallenge "abc").toList ∧
    (codeChallenge "abc").toList.getLast? ≠ some '=' := by
  have h := C2_codeChallenge_spec "abc" "abc"
  exact ⟨h.1 rfl, h.2.1, h.2.2.1, h.2.2.2.1, h.2.2.2.2⟩

end Pkce

namespace Pkce

/-! ## Helper lemmas about the store and `close` -/

lemma sGet_sDel (store : SessionStore) (k : String) : sGet (sDel store k) k = none := by
  induction store with
  | nil => rfl
  | cons p rest ih =>
    by_cases h : p.1 = k
    · simp only [sDel, sGet, List.filter, h] at ih ⊢
      simp at ih ⊢
    · simp only [sDel, sGet, List.filter] at ih ⊢
      simp [h] at ih ⊢

lemma close_sessionStore (st : ClientState) : (close st).sessionStore = st.sessionStore := by
  cases h : st.server <;> simp [close, closeRun, h]

lemma close_scopes (st : ClientState) : (close st).scopes = st.scopes := by
  cases h : st.server <;> simp [close, closeRun, h]

lemma close_serverAddress (st : ClientState) : (close st).serverAddress = st.serverAddress := by
  cases h : st.server <;> simp [close, closeRun, h]

lemma close_server (st : ClientState) : (close st).server = none := by
  cases h : st.server <;> simp [close, closeRun, h]

lemma close_of_server_none {st : ClientState} (h : st.server = none) : close st = st := by
  simp [close, closeRun, h]

/-! ## The claim's reading of the `/callback` validation conditions -/

/-- The four conditions of claim C1, read with "present" as `isSome`:
the query `state` is present, the query `code` is present, the
`session_state` cookie equals the query `state`, and that state is a key of
the session store. -/
def claimConds (store : SessionStore) (req : CallbackReq) : Prop :=
  req.qState.isSome = true ∧ req.qCode.isSome = true ∧
    req.cookieState = req.qState ∧ (sGet store (req.qState.getD "")).isSome = true

instance (store : SessionStore) (req : CallbackReq) : Decidable (claimConds store req) := by
  unfold claimConds; infer_instance

lemma validCallback_claimConds {store : SessionStore} {req : CallbackReq}
    (h : validCallback store req = true) : claimConds store req := by
  unfold validCallback at h
  rw [Bool.and_eq_true, Bool.and_eq_true, Bool.and_eq_true] at h
  obtain ⟨⟨⟨h1, h2⟩, h3⟩, h4⟩ := h
  refine ⟨?_, ?_, beq_iff_eq.mp h3, h4⟩
  · cases hq : req.qState <;> simp [hq, jsTruthy] at h1 ⊢
  · cases hc : req.qCode <;> simp [hc, jsTruthy] at h2 ⊢

lemma not_claimConds_validCallback {store : SessionStore} {req : CallbackReq}
    (h : ¬ claimConds store req) : validCallback store req = false := by
  by_cases hv : validCallback store req
  · exact absurd (validCallback_claimConds hv) h
  · simpa using hv

/-- C1: a `/callback` run succeeds (attempts the token exchange, resolves the
pending promise, or redirects the browser) only if state and code are
present, the cookie matches, and the state is in the session store; if any
of those fails, the handler responds 400 `"Invalid IdP response"`, rejects
with that message, and never calls the token endpoint. -/
theorem C1_callback_validation (cfg : ClientConfig) (st : ClientState)
    (req : CallbackReq) (f : FetchOutcome) :
    (((∃ b, Effect.fetchToken b ∈ (handleCallback cfg st req f).effects) ∨
      (∃ j, (handleCallback cfg st req f).outcome = Outcome.resolved j) ∨
      (∃ u, (handleCallback cfg st req f).http = HttpOut.redirect u)) →
      claimConds st.sessionStore req) ∧
    (¬ claimConds st.sessionStore req →
      (handleCallback cfg st req f).http =
        HttpOut.statusSend 400 (some "Invalid IdP response") ∧
      (handleCallback cfg st req f).outcome =
        Outcome.rejected (some "Invalid IdP response") ∧
      ∀ b, Effect.fetchToken b ∉ (handleCallback cfg st req f).effects) := by
  constructor
  · intro hsuc
    by_cases hv : validCallback st.sessionStore req
    · exact validCallback_claimConds hv
    · have hfalse : validCallback st.sessionStore req = false := by simpa using hv
      simp [handleCallback, hfalse] at hsuc
  · intro hnc
    have hfalse := not_claimConds_validCallback hnc
    refine ⟨?_, ?_, ?_⟩ <;> simp [handleCallback, hfalse]

/-! ## Concrete instances used by the witnesses -/

/-- A concrete client configuration. -/
def cfg0 : ClientConfig :=
  { clientId := "cid", clientSecret := some "sec", authUri := "https://idp/auth",
    tokenUri := "https://idp/token", revokeUri := "https://idp/revoke",
    logoutUri := "https://idp/logout", successUri := "https://app/ok" }

/-- A client state with a running flow and one issued state. -/
def stV : ClientState :=
  { scopes := "openid", server := some 5555,
    serverAddress := some "http://localhost:5555", sessionStore := [("s1", "v1")] }

/-- A `/callback` request that passes every validation condition against `stV`. -/
def reqV : CallbackReq :=
  { cookieState := some "s1", qCode := some "c1", qState := some "s1" }

/-- Witness for C1: a request whose query `state` is missing is answered
400 `"Invalid IdP response"`, rejected, and the token endpoint is not called. -/
theorem C1_witness :
    (handleCallback cfg0 stV { cookieState := some "s1", qCode := some "c1", qState := none }
        (FetchOutcome.success 200 {})).http =
      HttpOut.statusSend 400 (some "Invalid IdP response") ∧
    (handleCallback cfg0 stV { cookieState := some "s1", qCode := some "c1", qState := none }
        (FetchOutcome.success 200 {})).outcome =
      Outcome.rejected (some "Invalid IdP response") ∧
    ∀ b, Effect.fetchToken b ∉
      (handleCallback cfg0 stV { cookieState := some "s1", qCode := some "c1", qState := none }
        (FetchOutcome.success 200 {})).effects := by
  have h := C1_callback_validation cfg0 stV
    { cookieState := some "s1", qCode := some "c1", qState := none }
    (FetchOutcome.success 200 {})
  exact h.2 (by decide)

end Pkce

namespace Pkce

lemma handleCallback_invalid {cfg : ClientConfig} {st : ClientState}
    {req : CallbackReq} {f : FetchOutcome}
    (h : validCallback st.sessionStore req = false) :
    handleCallback cfg st req f =
      { http := HttpOut.statusSend 400 (some "Invalid IdP response"),
        outcome := Outcome.rejected (some "Invalid IdP response"),
        st := close st,
        effects := [Effect.rejectFlow, Effect.closeServer] } := by
  simp [handleCallback, h]

/-- C3: a valid `/callback` deletes the state's store entry before the token
exchange (the trace starts with the deletion, then the fetch), so a second
request with the same `state` finds the entry absent, is answered
400 `"Invalid IdP response"`, rejects, and never calls the token endpoint. -/
theorem C3_state_replay (cfg : ClientConfig) (st : ClientState)
    (req req2 : CallbackReq) (f1 f2 : FetchOutcome)
    (hv : validCallback st.sessionStore req = true)
    (hs : req2.qState = req.qState) :
    (∃ rest, (handleCallback cfg st req f1).effects =
      Effect.deleteEntry (req.qState.getD "") ::
      Effect.fetchToken (exchangeBody cfg st.serverAddress (req.qCode.getD "")
        ((sGet st.sessionStore (req.qState.getD "")).getD "")) :: rest) ∧
    sGet (handleCallback cfg st req f1).st.sessionStore (req.qState.getD "") = none ∧
    (handleCallback cfg (handleCallback cfg st req f1).st req2 f2).http =
      HttpOut.statusSend 400 (some "Invalid IdP response") ∧
    (handleCallback cfg (handleCallback cfg st req f1).st req2 f2).outcome =
      Outcome.rejected (some "Invalid IdP response") ∧
    ∀ b, Effect.fetchToken b ∉
      (handleCallback cfg (handleCallback cfg st req f1).st req2 f2).effects := by
  have hstore : (handleCallback cfg st req f1).st.sessionStore =
      sDel st.sessionStore (req.qState.getD "") := by
    cases f1 with
    | success status json =>
      by_cases h200 : status = 200 <;>
        simp [handleCallback, hv, h200, close_sessionStore]
    | failure msg => simp [handleCallback, hv, close_sessionStore]
  have habsent : sGet (handleCallback cfg st req f1).st.sessionStore
      (req.qState.getD "") = none := by
    rw [hstore]; exact sGet_sDel _ _
  have hv2 : validCallback (handleCallback cfg st req f1).st.sessionStore req2 = false := by
    simp [validCallback, hs, habsent]
  refine ⟨?_, habsent, ?_, ?_, ?_⟩
  · cases f1 with
    | success status json =>
      by_cases h200 : status = 200
      · exact ⟨[Effect.resolveFlow, Effect.closeServer], by simp [handleCallback, hv, h200]⟩
      · exact ⟨[Effect.rejectFlow, Effect.closeServer], by simp [handleCallback, hv, h200]⟩
    | failure msg =>
      exact ⟨[Effect.rejectFlow, Effect.closeServer], by simp [handleCallback, hv]⟩
  · rw [handleCallback_invalid hv2]
  · rw [handleCallback_invalid hv2]
  · rw [handleCallback_invalid hv2]
    simp

/-- Witness for C3 at a concrete valid request replayed twice. -/
theorem C3_witness :
    (∃ rest, (handleCallback cfg0 stV reqV (FetchOutcome.success 200 {})).effects =
      Effect.deleteEntry "s1" ::
      Effect.fetchToken (exchangeBody cfg0 (some "http://localhost:5555") "c1" "v1") :: rest) ∧
    sGet (handleCallback cfg0 stV reqV (FetchOutcome.success 200 {})).st.sessionStore "s1" = none ∧
    (handleCallback cfg0 (handleCallback cfg0 stV reqV (FetchOutcome.success 200 {})).st reqV
        (FetchOutcome.success 200 {})).http =
      HttpOut.statusSend 400 (some "Invalid IdP response") ∧
    (handleCallback cfg0 (handleCallback cfg0 stV reqV (FetchOutcome.success 200 {})).st reqV
        (FetchOutcome.success 200 {})).outcome =
      Outcome.rejected (some "Invalid IdP response") ∧
    ∀ b, Effect.fetchToken b ∉
      (handleCallback cfg0 (handleCallback cfg0 stV reqV (FetchOutcome.success 200 {})).st reqV
        (FetchOutcome.success 200 {})).effects := by
  have h := C3_state_replay cfg0 stV reqV reqV
    (FetchOutcome.success 200 {}) (FetchOutcome.success 200 {}) (by decide) rfl
  exact h

/-- C8: every `/callback` completion invokes `close()` exactly once, as the
last effect, and leaves the listener handle null; `close()` is idempotent
and a no-op when no flow is active. -/
theorem C8_listener_teardown (cfg : ClientConfig) (st st2 : ClientState)
    (req : CallbackReq) (f : FetchOutcome) :
    (handleCallback cfg st req f).effects.getLast? = some Effect.closeServer ∧
    (handleCallback cfg st req f).effects.count Effect.closeServer = 1 ∧
    (handleCallback cfg st req f).st.server = none ∧
    close (close st2) = close st2 ∧
    (st2.server = none → close st2 = st2) := by
  have hmain : (handleCallback cfg st req f).effects.getLast? = some Effect.closeServer ∧
      (handleCallback cfg st req f).effects.count Effect.closeServer = 1 ∧
      (handleCallback cfg st req f).st.server = none := by
    by_cases hv : validCallback st.sessionStore req
    · cases f with
      | success status json =>
        by_cases h200 : status = 200 <;>
          simp [handleCallback, hv, h200, close_server, List.count_cons]
      | failure msg => simp [handleCallback, hv, close_server, List.count_cons]
    · have hfalse : validCallback st.sessionStore req = false := by simpa using hv
      simp [handleCallback, hfalse, close_server, List.count_cons]
  exact ⟨hmain.1, hmain.2.1, hmain.2.2,
    close_of_server_none (close_server st2), fun h => close_of_server_none h⟩

/-- Witness for C8 at a concrete request and state. -/
theorem C8_witness :
    (handleCallback cfg0 stV reqV (FetchOutcome.success 200 {})).effects.getLast? =
      some Effect.closeServer ∧
    (handleCallback cfg0 stV reqV
      (FetchOutcome.success 200 {})).effects.count Effect.closeServer = 1 ∧
    (handleCallback cfg0 stV reqV (FetchOutcome.success 200 {})).st.server = none ∧
    close (close initialState) = close initialState ∧
    close initialState = initialState := by
  have h := C8_listener_teardown cfg0 stV initialState reqV (FetchOutcome.success 200 {})
  exact ⟨h.1, h.2.1, h.2.2.1, h.2.2.2.1, h.2.2.2.2 rfl⟩

end Pkce

namespace Pkce

/-- C4: when a flow is already running (`this.server` non-null), `authorize`
returns a synchronous rejection, performs no effect (no listener bind, no
browser launch, no network request), and leaves the client state — scopes,
session store, server handle, address — exactly as it was. -/
theorem C4_concurrent_authorize (st : ClientState) (scopes : Option String)
    (port : Nat) (h : st.server.isSome = true) :
    authorize st scopes port =
      { result := AuthResult.rejected
          "Pending authorization flow. Close existing session to rerun.",
        st := st, effects := [] } := by
  simp [authorize, h]

/-- Witness for C4: a second `authorize` against `stV` (whose listener is
bound on port 5555) rejects with the concurrency message and changes nothing. -/
theorem C4_witness :
    authorize stV (some "email") 80 =
      { result := AuthResult.rejected
          "Pending authorization flow. Close existing session to rerun.",
        st := stV, effects := [] } :=
  C4_concurrent_authorize stV (some "email") 80 (by decide)

/-- C7: `authorize` records the caller's scopes with `" openid"` appended when
they are non-empty, and `"openid"` alone when they are omitted or empty; the
`/auth` redirect URL embeds exactly those recorded scopes (URI-encoded) as
its `scope` query parameter. -/
theorem C7_scopes (st : ClientState) (s : String) (port : Nat)
    (cfg : ClientConfig) (cv stt : String) (hserver : st.server = none) :
    (s ≠ "" → (authorize st (some s) port).st.scopes = s ++ " " ++ "openid") ∧
    (authorize st none port).st.scopes = "openid" ∧
    (authorize st (some "") port).st.scopes = "openid" ∧
    (authHandler cfg (authorize st (some s) port).st cv stt).location =
      cfg.authUri ++
      "?client_id=" ++ encodeURIComponent cfg.clientId ++
      "&redirect_uri=" ++ encodeURIComponent (serverAddressFor port ++ "/callback") ++
      "&response_type=code" ++
      "&scope=" ++ encodeURIComponent ((authorize st (some s) port).st.scopes) ++
      "&code_challenge=" ++ encodeURIComponent (codeChallenge cv) ++
      "&code_challenge_method=S256" ++
      "&prompt=login" ++
      "&state=" ++ encodeURIComponent stt := by
  refine ⟨?_, ?_, ?_, ?_⟩
  · intro hne
    simp [authorize, hserver, jsTruthy, hne, DEFAULT_SCOPE, SCOPE_SEPARATOR]
  · simp [authorize, hserver, jsTruthy, DEFAULT_SCOPE]
  · simp [authorize, hserver, jsTruthy, DEFAULT_SCOPE]
  · simp [authHandler, authorize, hserver, jsShow]

/-- Witness for C7: `authorize("offline_access")` from an idle client records
`"offline_access openid"` and `/auth` redirects with that scope parameter. -/
theorem C7_witness :
    (authorize initialState (some "offline_access") 5555).st.scopes =
      "offline_access" ++ " " ++ "openid" ∧
    (authorize initialState none 5555).st.scopes = "openid" ∧
    (authorize initialState (some "") 5555).st.scopes = "openid" ∧
    (authHandler cfg0 (authorize initialState (some "offline_access") 5555).st
        "ver0" "state0").location =
      cfg0.authUri ++
      "?client_id=" ++ encodeURIComponent cfg0.clientId ++
      "&redirect_uri=" ++ encodeURIComponent (serverAddressFor 5555 ++ "/callback") ++
      "&response_type=code" ++
      "&scope=" ++
        encodeURIComponent ((authorize initialState (some "offline_access") 5555).st.scopes) ++
      "&code_challenge=" ++ encodeURIComponent (codeChallenge "ver0") ++
      "&code_challenge_method=S256" ++
      "&prompt=login" ++
      "&state=" ++ encodeURIComponent "state0" := by
  have h := C7_scopes initialState "offline_access" 5555 cfg0 "ver0" "state0" rfl
  exact ⟨h.1 (by decide), h.2.1, h.2.2.1, h.2.2.2⟩

/-- C9 as amended: the session store is carried unchanged across flows —
neither `authorize` nor `close` touches it, so a state key stored during an
aborted flow is still present when a later `authorize` begins; only a
`/callback` that consumes it removes an entry. -/
theorem C9_store_persists (st : ClientState) (scopes : Option String) (port : Nat) :
    (authorize st scopes port).st.sessionStore = st.sessionStore ∧
    (close st).sessionStore = st.sessionStore := by
  constructor
  · by_cases h : st.server.isSome <;> simp [authorize, h]
  · exact close_sessionStore st

/-- Counterexample to C9 as stated: start an `authorize` flow, hit `/auth`
(which stores `state0 → ver0`), abort with `close()`, and start a second
`authorize` flow — the stale `state0` entry is still in the store at the
start of the second flow, not absent as the claim requires. -/
theorem C9_counterexample :
    sGet (authorize (close (authHandler cfg0
        (authorize initialState (some "email") 5555).st "ver0" "state0").st)
        none 5555).st.sessionStore "state0" = some "ver0" := by
  simp [authorize, authHandler, close, closeRun, initialState, sPut, sDel, sGet]

/-- C10: `close()` mutates only the `server` handle — the session store,
recorded scopes and server address are untouched — and its effect trace never
resolves or rejects the pending promise, so a flow closed before `/callback`
is left pending forever. -/
theorem C10_close_frame (st : ClientState) :
    (close st).sessionStore = st.sessionStore ∧
    (close st).scopes = st.scopes ∧
    (close st).serverAddress = st.serverAddress ∧
    (close st).server = none ∧
    Effect.resolveFlow ∉ (closeRun st).2 ∧
    Effect.rejectFlow ∉ (closeRun st).2 := by
  refine ⟨close_sessionStore st, close_scopes st, close_serverAddress st,
    close_server st, ?_, ?_⟩ <;>
    cases h : st.server <;> simp [closeRun, h]

/-- Witness for C10 at the concrete running-flow state `stV`. -/
theorem C10_witness :
    (close stV).sessionStore = stV.sessionStore ∧
    (close stV).scopes = stV.scopes ∧
    (close stV).serverAddress = stV.serverAddress ∧
    (close stV).server = none ∧
    Effect.resolveFlow ∉ (closeRun stV).2 ∧
    Effect.rejectFlow ∉ (closeRun stV).2 :=
  C10_close_frame stV

end Pkce

namespace Pkce

/-- C5: `revokeAndGetLogoutUrl` calls `refresh` first and `revoke` second; a
`refresh` failure propagates before `revoke` is ever called, and on success
of both it returns exactly `<logoutUri>?id_token_hint=<id_token>` with the
`id_token` taken from the refresh response. -/
theorem C5_revokeAndGetLogoutUrl (cfg : ClientConfig) (tok : String)
    (rf rv : FetchOutcome) :
    (∀ m, refresh rf = Except.error m →
      revokeAndGetLogoutUrl cfg tok rf rv =
        { calls := [CallEvent.refreshCall tok], result := Except.error m }) ∧
    (∀ json t, refresh rf = Except.ok json → json.id_token = some t →
      revoke rv = Except.ok () →
      revokeAndGetLogoutUrl cfg tok rf rv =
        { calls := [CallEvent.refreshCall tok,
                    CallEvent.revokeCall tok "refresh_token"],
          result := Except.ok (cfg.logoutUri ++ "?id_token_hint=" ++ t) }) := by
  constructor
  · intro m hm
    simp [revokeAndGetLogoutUrl, hm]
  · intro json t hok hid hrv
    simp [revokeAndGetLogoutUrl, hok, hrv, jsShow, hid]

/-- Witness for C5: with stubs answering `id_token:"Z"` for refresh and 200
for revoke it returns `<logoutUri>?id_token_hint=Z`; with a stub failing the
refresh, it fails with that error and never calls revoke. -/
theorem C5_witness :
    revokeAndGetLogoutUrl cfg0 "T"
        (FetchOutcome.success 200 { id_token := some "Z" })
        (FetchOutcome.success 200 {}) =
      { calls := [CallEvent.refreshCall "T", CallEvent.revokeCall "T" "refresh_token"],
        result := Except.ok (cfg0.logoutUri ++ "?id_token_hint=" ++ "Z") } ∧
    revokeAndGetLogoutUrl cfg0 "T"
        (FetchOutcome.success 400 { error := some "invalid_grant" })
        (FetchOutcome.success 200 {}) =
      { calls := [CallEvent.refreshCall "T"],
        result := Except.error "invalid_grant" } := by
  have h1 := C5_revokeAndGetLogoutUrl cfg0 "T"
    (FetchOutcome.success 200 { id_token := some "Z" }) (FetchOutcome.success 200 {})
  have h2 := C5_revokeAndGetLogoutUrl cfg0 "T"
    (FetchOutcome.success 400 { error := some "invalid_grant" }) (FetchOutcome.success 200 {})
  exact ⟨h1.2 { id_token := some "Z" } "Z" (by decide) rfl (by decide),
         h2.1 "invalid_grant" (by decide)⟩

/-- C6 as amended: on a token-endpoint status other than 200 both operations
fail, but they surface different messages — `refresh` throws
`error_description || error || 'Unknown Error'`, while the `/callback`
exchange rejects (and sends) the body's `error` field alone. -/
theorem C6_non200_errors (status : Nat) (body : TokenBody) (h : status ≠ 200) :
    refresh (FetchOutcome.success status body) = Except.error (errMsg body) ∧
    (∀ cfg st req, validCallback st.sessionStore req = true →
      (handleCallback cfg st req (FetchOutcome.success status body)).outcome =
        Outcome.rejected body.error ∧
      (handleCallback cfg st req (FetchOutcome.success status body)).http =
        HttpOut.statusSend status body.error) := by
  constructor
  · simp [refresh, h]
  · intro cfg st req hv
    constructor <;> simp [handleCallback, hv, h]

/-- Counterexample to C6 as stated: a 400 exchange response whose body has
both `error_description: "Bad code"` and `error: "invalid_grant"` makes the
`/callback` handler reject with `"invalid_grant"` — the `error` field — not
with the `error_description` the claim requires to take precedence. -/
theorem C6_counterexample :
    (handleCallback cfg0 stV reqV (FetchOutcome.success 400
        { error := some "invalid_grant", error_description := some "Bad code" })).outcome =
      Outcome.rejected (some "invalid_grant") ∧
    (handleCallback cfg0 stV reqV (FetchOutcome.success 400
        { error := some "invalid_grant", error_description := some "Bad code" })).outcome ≠
      Outcome.rejected (some "Bad code") := by
  constructor
  · decide
  · decide

/-- Witness for C6 as amended: `refresh` against a 400 `{error:"invalid_grant"}`
stub fails with `"invalid_grant"`, and the `/callback` exchange against the
same stub rejects with the `error` field. -/
theorem C6_witness :
    refresh (FetchOutcome.success 400 { error := some "invalid_grant" }) =
      Except.error "invalid_grant" ∧
    (handleCallback cfg0 stV reqV (FetchOutcome.success 400
        { error := some "invalid_grant" })).outcome =
      Outcome.rejected (some "invalid_grant") := by
  have h := C6_non200_errors 400 { error := some "invalid_grant" } (by decide)
  exact ⟨h.1, (h.2 cfg0 stV reqV (by decide)).1⟩

end Pkce
